import Mathlib

/-!
Shallow embedding of the rust-cassowary music streaming server.

The embedding covers the credential verifier (`src/auth/mod.rs`), the
authentication middleware (`src/auth/middleware.rs`), both revisions of the
track streaming handler (`src/main.rs` `stream_track` with range support, and
`src/lib.rs` `stream_track` wired into the app by `create_app`), the range
header parsing, the prefetch handlers of both revisions, the background
prefetch worker (`src/main.rs` `prefetch_task`) and the user-info handler
(`src/lib.rs` `user_info`).

Machine integers are modelled as `Nat` with explicit `% 2^64` where u64
overflow or underflow matters. Filesystems are modelled as functions from
file names to optional contents. The JWT layer is modelled symbolically: a
token is either a claim set signed with some secret, or malformed; decoding
with the configured secret succeeds exactly when the secrets agree and the
expiry check passes (the `jsonwebtoken` crate's default 60 second leeway is
kept).
-/

namespace RustyCassowary

/-- Modulus of Rust's `u64` type. -/
def U64_MOD : Nat := 2 ^ 64

/-- Rust `usize::MAX` on a 64-bit target, used for the anonymous identity's
`exp` field in `src/auth/mod.rs`. -/
def USIZE_MAX : Nat := U64_MOD - 1

/-- Wrapping `u64` subtraction (release-build semantics of `a - b`). -/
def u64sub (a b : Nat) : Nat := (a + U64_MOD - b % U64_MOD) % U64_MOD

/-- Wrapping `u64` addition. -/
def u64add (a b : Nat) : Nat := (a + b) % U64_MOD

/-- Whether the debug-build `u64` subtraction `a - b` panics (underflow). -/
def u64subPanics (a b : Nat) : Bool := a < b

/-- The `Claims` struct of `src/auth/mod.rs`: `sub` and `exp` are mandatory
fields of the serde deserialization, the rest are `Option`s. -/
structure Claims where
  sub : String
  email : Option String
  role : Option String
  exp : Nat
  aud : Option String
  iss : Option String
deriving DecidableEq

/-- Symbolic model of a JWT string: either a claim set signed (HS256) with a
given secret, or a string that does not decode at all. -/
inductive Token where
  | signed (claims : Claims) (secret : String)
  | malformed (raw : String)
deriving DecidableEq

/-- Value of an `Authorization` header: `bearer tok` stands for a value of
the form `Bearer <token>` (the `starts_with("Bearer ")` test in
`verify_supabase_token` succeeds), `other` for any other value. -/
inductive AuthHeaderValue where
  | bearer (tok : Token)
  | other (raw : String)
deriving DecidableEq

/-- The request headers consulted by the server: `Authorization`, `apikey`
and `Range`. -/
structure HeaderMap where
  authorization : Option AuthHeaderValue
  apikey : Option String
  range : Option String
deriving DecidableEq

/-- Result of credential verification, `Result<Claims, StatusCode>` in the
source. Error codes are numeric HTTP status codes. -/
inductive AuthResult where
  | ok (claims : Claims)
  | err (code : Nat)
deriving DecidableEq

/-- Default `leeway` of `jsonwebtoken`'s `Validation::new` (seconds). -/
def JWT_LEEWAY : Nat := 60

/-- Embedding of `decode_and_validate_token` (`src/auth/mod.rs` lines
65-80): HS256 decode with the shared secret; `validate_exp = true` with the
default leeway; `required_spec_claims` is cleared, so besides the fields the
`Claims` struct itself makes mandatory, no claim is required. A token is
expired when `exp < now - leeway` (`u64` arithmetic; `Nat` truncated
subtraction agrees with it for realistic `now`). -/
def decode_and_validate_token (tok : Token) (jwt_secret : String) (now : Nat) : AuthResult :=
  match tok with
  | .malformed _ => .err 401
  | .signed c s =>
    if s = jwt_secret then
      if c.exp < now - JWT_LEEWAY then .err 401 else .ok c
    else .err 401

/-- The fixed anonymous identity manufactured for the `apikey` path
(`src/auth/mod.rs` lines 44-53): subject `anon-user`, role `anon`,
`exp = usize::MAX`. -/
def anonClaims : Claims := ⟨"anon-user", none, some "anon", USIZE_MAX, none, none⟩

/-- The `apikey` fall-through of `verify_supabase_token`: a present,
non-empty `apikey` header yields the anonymous identity; otherwise 401. -/
def apikey_check (headers : HeaderMap) : AuthResult :=
  match headers.apikey with
  | some k => if k = "" then .err 401 else .ok anonClaims
  | none => .err 401

/-- Embedding of `verify_supabase_token` (`src/auth/mod.rs` lines 26-62).
If an `Authorization` header of the form `Bearer <token>` is present, the
function returns the decode result directly (note the early `return`: the
`apikey` path is only reached when no `Bearer`-form header is present).
Otherwise it falls through to the `apikey` check. -/
def verify_supabase_token (headers : HeaderMap) (jwt_secret : String) (now : Nat) : AuthResult :=
  match headers.authorization with
  | some (.bearer tok) => decode_and_validate_token tok jwt_secret now
  | some (.other _) => apikey_check headers
  | none => apikey_check headers

/-- Maximal prefix of decimal digits (the greedy `\d+` / `\d*` of the range
regex; digits are ASCII `0`-`9`). Returns the digits and the rest. -/
def takeDigits : List Char → List Char × List Char
  | [] => ([], [])
  | c :: rest =>
    if c.isDigit then
      let p := takeDigits rest
      (c :: p.1, p.2)
    else ([], c :: rest)

/-- Match the literal `bytes=` at the head of the input, returning the rest. -/
def stripBytesEq : List Char → Option (List Char)
  | 'b' :: 'y' :: 't' :: 'e' :: 's' :: '=' :: rest => some rest
  | _ => none

/-- Try to match the regex `bytes=(\d+)-(\d+)?` at the start of the input,
returning the two capture groups (group 2 absent when no digit follows the
dash). -/
def matchRangeAt (cs : List Char) : Option (List Char × Option (List Char)) :=
  match stripBytesEq cs with
  | none => none
  | some rest =>
    match takeDigits rest with
    | ([], _) => none
    | (d1, r1) =>
      match r1 with
      | '-' :: r2 =>
        let d2 := (takeDigits r2).1
        some (d1, if d2.isEmpty then none else some d2)
      | _ => none

/-- Leftmost match of the regex `bytes=(\d+)-(\d+)?` anywhere in the input:
`Regex::captures` searches the whole string, it does not anchor at the
start. -/
def findRangeMatch : List Char → Option (List Char × Option (List Char))
  | [] => none
  | c :: rest =>
    match matchRangeAt (c :: rest) with
    | some m => some m
    | none => findRangeMatch rest

/-- Numeric value of a list of decimal digits. -/
def parseNatDigits (ds : List Char) : Nat :=
  ds.foldl (fun acc c => 10 * acc + (c.toNat - '0'.toNat)) 0

/-- Rust's `str::parse::<u64>` on a non-empty digit string: fails exactly
when the value overflows `u64`. -/
def parseU64 (ds : List Char) : Option Nat :=
  if parseNatDigits ds < U64_MOD then some (parseNatDigits ds) else none

/-- Embedding of the range-header parsing in `stream_track` (`src/main.rs`
lines 121-133): find the regex anywhere in the header value, parse group 1
as `u64` (failure of the `?` yields no range at all), and parse group 2 as
`u64`, defaulting to `file_size - 1` (wrapping `u64` subtraction in release
builds) when the group is absent or fails to parse. -/
def parse_range_header (hdr : Option String) (file_size : Nat) : Option (Nat × Nat) :=
  match hdr with
  | none => none
  | some s =>
    match findRangeMatch s.data with
    | none => none
    | some (d1, d2) =>
      match parseU64 d1 with
      | none => none
      | some start =>
        let endDefault := u64sub file_size 1
        let e := match d2 with
          | some ds =>
            match parseU64 ds with
            | some v => v
            | none => endDefault
          | none => endDefault
        some (start, e)

/-- Whether the range parsing in `src/main.rs` parses a start position, i.e.
reaches the `unwrap_or(file_size - 1)` call. -/
def range_start_parses (hdr : Option String) : Bool :=
  match hdr with
  | none => false
  | some s =>
    match findRangeMatch s.data with
    | none => false
    | some (d1, _) => (parseU64 d1).isSome

/-- Whether the `file_size - 1` computation in `src/main.rs` line 131
underflows in debug builds. `unwrap_or` evaluates its argument eagerly, so
the subtraction runs whenever a start position was parsed, and it panics
exactly when `file_size < 1`. -/
def default_end_underflows (hdr : Option String) (file_size : Nat) : Bool :=
  range_start_parses hdr && u64subPanics file_size 1

/-- The response of a track-retrieval handler: status, the headers the
source sets (absent field = header not set), and the streamed body bytes. -/
structure TrackResponse where
  status : Nat
  contentType : Option String
  contentRange : Option String
  contentLength : Option Nat
  acceptRanges : Option String
  body : List Nat
deriving DecidableEq

/-- `Result<Response, StatusCode>` of a track handler. -/
inductive HandlerResult where
  | response (r : TrackResponse)
  | err (code : Nat)
deriving DecidableEq

/-- The `Accept-Ranges` header of a handler result, when a response was
produced. -/
def HandlerResult.acceptRangesHdr : HandlerResult → Option String
  | .response r => r.acceptRanges
  | .err _ => none

/-- Embedding of `stream_track` in `src/main.rs` (lines 92-187). The
filesystem maps file names to contents; a missing file is 404 (checked
before authentication), open and metadata are modelled as succeeding on a
present file (their I/O-error 500 branches are not reachable in this
model). In the range branch the body is `ReaderStream::new(file.take(end -
start + 1))`: the file handle is still at position 0 — there is no seek —
so the stream yields the first `end - start + 1` bytes of the file. -/
def main_stream_track (fs : String → Option (List Nat)) (track_id : String)
    (headers : HeaderMap) (jwt_secret : String) (now : Nat) : HandlerResult :=
  match fs (track_id ++ ".mp3") with
  | none => .err 404
  | some bytes =>
    match verify_supabase_token headers jwt_secret now with
    | .err c => .err c
    | .ok _ =>
      let file_size := bytes.length
      match parse_range_header headers.range file_size with
      | some (start, e) =>
        let n := u64add (u64sub e start) 1
        .response ⟨206, some "audio/mpeg",
          some ("bytes " ++ toString start ++ "-" ++ toString e ++ "/" ++ toString file_size),
          some n, none, bytes.take n⟩
      | none =>
        .response ⟨200, some "audio/mpeg", none, some file_size, none, bytes⟩

/-- Embedding of `stream_track` in `src/lib.rs` (lines 98-132), the handler
`create_app` wires at `GET /tracks/:id`: authenticate, open
`{id}.mp3` (failure is 404), then always respond 200 with `Content-Type`,
`Content-Length` and the whole file as body — the `Range` header is ignored
entirely. Metadata and builder errors (500) are not reachable in this
model. -/
def lib_stream_track (fs : String → Option (List Nat)) (id : String)
    (headers : HeaderMap) (jwt_secret : String) (now : Nat) : HandlerResult :=
  match verify_supabase_token headers jwt_secret now with
  | .err c => .err c
  | .ok _ =>
    match fs (id ++ ".mp3") with
    | none => .err 404
    | some bytes =>
      .response ⟨200, some "audio/mpeg", none, some bytes.length, none, bytes⟩

/-- The wired `/tracks/:id` route: `create_app` (`src/lib.rs` lines
228-235) layers `require_auth` (`src/auth/middleware.rs` lines 13-37) over
`lib_stream_track`; the middleware returns 401 when verification fails and
otherwise runs the handler. -/
def app_tracks_route (fs : String → Option (List Nat)) (id : String)
    (headers : HeaderMap) (jwt_secret : String) (now : Nat) : HandlerResult :=
  match verify_supabase_token headers jwt_secret now with
  | .err _ => .err 401
  | .ok _ => lib_stream_track fs id headers jwt_secret now

/-- `VecDeque::push_back`: append at the tail. -/
def push_back (q : List String) (x : String) : List String := q ++ [x]

/-- `VecDeque::pop_front`: remove from the head, returning the removed
element (if any) and the remaining queue. -/
def pop_front : List String → Option String × List String
  | [] => (none, [])
  | h :: t => (some h, t)

/-- Embedding of `prefetch_tracks` in `src/main.rs` (lines 190-204):
authenticate, then `push_back` each body identifier onto the shared queue in
body order; respond 200. On rejection the queue is untouched and the status
code propagates. Returns the status and the new queue. -/
def main_prefetch_tracks (headers : HeaderMap) (jwt_secret : String) (now : Nat)
    (track_ids : List String) (queue : List String) : Nat × List String :=
  match verify_supabase_token headers jwt_secret now with
  | .err c => (c, queue)
  | .ok _ => (200, track_ids.foldl push_back queue)

/-- Drain a queue by repeated `pop_front` until it reports empty (fuelled by
the queue length, which suffices since each pop shortens the queue). -/
def drainFuel : Nat → List String → List String
  | 0, _ => []
  | Nat.succ fuel, q =>
    match pop_front q with
    | (none, _) => []
    | (some h, t) => h :: drainFuel fuel t

/-- The dequeue order obtained by draining a queue with `pop_front`. -/
def drain (q : List String) : List String := drainFuel q.length q

/-- The JSON body of `prefetch_tracks` in `src/lib.rs` (lines 141-169). -/
structure PrefetchBody where
  valid_track_ids : List String
  invalid_track_ids : List String
deriving DecidableEq

/-- Result of the lib-revision prefetch handler. -/
inductive PrefetchResult where
  | response (status : Nat) (body : PrefetchBody)
  | err (code : Nat)
deriving DecidableEq

/-- Embedding of `prefetch_tracks` in `src/lib.rs` (lines 141-169), the
handler `create_app` wires at `POST /prefetch`: authenticate, split the
requested identifiers into those whose `{id}.mp3` file exists and those
whose file does not, and respond 200 with the two lists. No queue is
touched — the lib revision's `AppState` has no queue field at all. -/
def lib_prefetch_tracks (fs : String → Option (List Nat)) (headers : HeaderMap)
    (jwt_secret : String) (now : Nat) (track_ids : List String) : PrefetchResult :=
  match verify_supabase_token headers jwt_secret now with
  | .err c => .err c
  | .ok _ =>
    let split := track_ids.partition (fun tid => (fs (tid ++ ".mp3")).isSome)
    .response 200 ⟨split.1, split.2⟩

/-- The wired `POST /prefetch` route with the process-wide prefetch queue
threaded through: `create_app` routes to `lib_prefetch_tracks`, which
performs no queue operation, so the queue passes through unchanged. -/
def app_prefetch_route (fs : String → Option (List Nat)) (headers : HeaderMap)
    (jwt_secret : String) (now : Nat) (track_ids : List String)
    (queue : List String) : PrefetchResult × List String :=
  (lib_prefetch_tracks fs headers jwt_secret now track_ids, queue)

/-- One observable outcome of a `file.read(&mut buffer)` call during
warming. -/
inductive ReadResult where
  | ok (n : Nat)
  | ioError
deriving DecidableEq

/-- The warming loop of `prefetch_task` (`src/main.rs` lines 290-296):
`while let Ok(n) = file.read(...) { if n == 0 { break; } }` — stops at the
first `Ok(0)` or at the first I/O error, which the `while let` absorbs
silently. The bytes are discarded; the returned count of performed reads is
likewise discarded by the caller. -/
def warm_loop : List ReadResult → Nat
  | [] => 0
  | .ok 0 :: _ => 1
  | .ok (Nat.succ _) :: rest => 1 + warm_loop rest
  | .ioError :: _ => 1

/-- What one iteration of the worker loop leaves observable: the queue after
the iteration and the sleep the iteration ends with. -/
structure WorkerObs where
  queue : List String
  sleep_ms : Nat
deriving DecidableEq

/-- Embedding of one iteration of the `prefetch_task` loop (`src/main.rs`
lines 277-303): `pop_front` under the lock; if an identifier came out,
look up `{id}.mp3` in the warming filesystem (a missing file is skipped
silently; a present file's read behaviour is a list of read outcomes fed to
`warm_loop`, whose result is discarded); finally sleep 100 ms. The
iteration has no error channel: nothing it does can surface to a caller. -/
def prefetch_task_iteration (warmfs : String → Option (List ReadResult))
    (queue : List String) : WorkerObs :=
  match pop_front queue with
  | (none, q) => ⟨q, 100⟩
  | (some track_id, q) =>
    match warmfs (track_id ++ ".mp3") with
    | none => ⟨q, 100⟩
    | some reads =>
      let _chunks := warm_loop reads
      ⟨q, 100⟩

/-- Result of the `user_info` handler: a status and the JSON object fields
in emission order (string or null values). -/
inductive UserInfoResult where
  | ok (status : Nat) (body : List (String × Option String))
  | err (code : Nat)
deriving DecidableEq

/-- Whether a field of the given name occurs in the JSON body of a
successful user-info response. -/
def UserInfoResult.hasField : UserInfoResult → String → Bool
  | .ok _ body, name => body.any (fun f => f.1 = name)
  | .err _, _ => false

/-- Embedding of `user_info` in `src/lib.rs` (lines 172-186), the handler
`create_app` wires at `GET /me`: authenticate, then respond 200 with a JSON
object holding exactly `user_id` (the subject) and `email` — the claims'
role is not emitted. -/
def lib_user_info (headers : HeaderMap) (jwt_secret : String) (now : Nat) : UserInfoResult :=
  match verify_supabase_token headers jwt_secret now with
  | .err c => .err c
  | .ok claims => .ok 200 [("user_id", some claims.sub), ("email", claims.email)]

/-- Claim C1, counterexample: a request carrying a non-empty `apikey` header
together with an `Authorization: Bearer <token>` header whose token is
invalid is rejected with 401 — the anonymous identity is not returned,
because `verify_supabase_token` returns the decode result directly whenever
a `Bearer`-form header is present. -/
theorem apikey_with_invalid_bearer_rejected :
    verify_supabase_token ⟨some (.bearer (.malformed "not-a-jwt")), some "anon-key", none⟩
      "secret" 1000 = .err 401 ∧
    (AuthResult.err 401 : AuthResult) ≠ .ok anonClaims := by
  exact ⟨rfl, by decide⟩

/-- Claim C1 (amended): for every request whose headers carry a non-empty
`apikey` header and no `Authorization` header of the form `Bearer <token>`,
credential verification succeeds and returns the fixed anonymous identity
with subject `anon-user` and role `anon`. -/
theorem apikey_without_bearer_admits_anon
    (headers : HeaderMap) (jwt_secret : String) (now : Nat) (k : String)
    (hk : headers.apikey = some k) (hne : k ≠ "")
    (hauth : headers.authorization = none ∨
      ∃ raw, headers.authorization = some (AuthHeaderValue.other raw)) :
    verify_supabase_token headers jwt_secret now = .ok anonClaims ∧
    anonClaims.sub = "anon-user" ∧ anonClaims.role = some "anon" := by
  have hkc : apikey_check headers = .ok anonClaims := by
    unfold apikey_check
    rw [hk]
    simp [hne]
  refine ⟨?_, rfl, rfl⟩
  unfold verify_supabase_token
  rcases hauth with h | ⟨raw, h⟩ <;> rw [h] <;> exact hkc

/-- Witness for C1's amended theorem at a concrete request. -/
theorem apikey_without_bearer_admits_anon_witness :
    verify_supabase_token ⟨none, some "any-nonempty-key", none⟩ "secret" 0 = .ok anonClaims ∧
    anonClaims.sub = "anon-user" ∧ anonClaims.role = some "anon" :=
  apikey_without_bearer_admits_anon ⟨none, some "any-nonempty-key", none⟩ "secret" 0
    "any-nonempty-key" rfl (by decide) (Or.inl rfl)

/-- Claim C3 (confirmed): every token signed with the configured shared
secret that is not yet expired and is presented as `Authorization: Bearer
<token>` is accepted, and the returned claim set is exactly the encoded
one — in particular it carries the encoded subject, and no claim beyond the
mandatory fields of the `Claims` struct needs to be present (the witness
uses a token whose optional claims are all absent). -/
theorem valid_bearer_token_admits_with_encoded_subject
    (c : Claims) (jwt_secret : String) (apik rng : Option String) (now : Nat)
    (hexp : now < c.exp) :
    verify_supabase_token ⟨some (.bearer (.signed c jwt_secret)), apik, rng⟩ jwt_secret now
      = .ok c := by
  have h1 : verify_supabase_token ⟨some (.bearer (.signed c jwt_secret)), apik, rng⟩ jwt_secret now
      = decode_and_validate_token (.signed c jwt_secret) jwt_secret now := rfl
  rw [h1]
  show (if jwt_secret = jwt_secret then
      if c.exp < now - JWT_LEEWAY then AuthResult.err 401 else AuthResult.ok c
    else AuthResult.err 401) = AuthResult.ok c
  rw [if_pos rfl, if_neg]
  unfold JWT_LEEWAY
  omega

/-- Witness for C3 at a concrete token carrying only a subject and an
expiry. -/
theorem valid_bearer_token_admits_with_encoded_subject_witness :
    verify_supabase_token
      ⟨some (.bearer (.signed ⟨"alice", none, none, 100, none, none⟩ "topsecret")), none, none⟩
      "topsecret" 10 = .ok ⟨"alice", none, none, 100, none, none⟩ :=
  valid_bearer_token_admits_with_encoded_subject ⟨"alice", none, none, 100, none, none⟩
    "topsecret" none none 10 (by decide)

/-- Claim C2 (code bug): for a 30-byte file and `Range: bytes=10-19`, the
handler does produce status 206, `Content-Range: bytes 10-19/30` and
`Content-Length: 10`, but the body is the FIRST ten bytes of the file
(`file.take(end - start + 1)` with no preceding seek), not bytes 10-19: the
body contradicts the handler's own `Content-Range` header. -/
theorem range_request_streams_from_file_start :
    main_stream_track (fun name => if name = "t.mp3" then some (List.range 30) else none)
      "t" ⟨none, some "anon-key", some "bytes=10-19"⟩ "secret" 0
      = .response ⟨206, some "audio/mpeg", some "bytes 10-19/30", some 10, none,
          (List.range 30).take 10⟩ ∧
    (List.range 30).take 10 ≠ ((List.range 30).drop 10).take 10 := by
  exact ⟨by decide, by decide⟩

/-- Claim C5, counterexample: the specifier `xbytes=1-2` does not match the
grammar `bytes=<start>-<end>?`, yet the handler serves a 206 partial
response rather than the whole resource, because `Regex::captures` finds
the pattern anywhere in the header value (the regex is unanchored). -/
theorem unanchored_range_regex_parses_embedded_specifier :
    main_stream_track (fun name => if name = "t.mp3" then some [0, 1, 2, 3, 4, 5, 6, 7, 8, 9] else none)
      "t" ⟨none, some "anon-key", some "xbytes=1-2"⟩ "secret" 0
      = .response ⟨206, some "audio/mpeg", some "bytes 1-2/10", some 2, none, [0, 1]⟩ := by
  decide

/-- Claim C5 (amended): when no `Range` header is present, or the header
value contains no substring matching `bytes=<digits>-<digits>?`, the
authenticated handler serves the whole resource: status 200,
`Content-Length` equal to the total length, and the full file as body. -/
theorem no_regex_match_serves_whole_resource
    (fs : String → Option (List Nat)) (id : String) (headers : HeaderMap)
    (jwt_secret : String) (now : Nat) (bytes : List Nat) (c : Claims)
    (hfs : fs (id ++ ".mp3") = some bytes)
    (hok : verify_supabase_token headers jwt_secret now = .ok c)
    (hrange : headers.range = none ∨
      ∃ s, headers.range = some s ∧ findRangeMatch s.data = none) :
    main_stream_track fs id headers jwt_secret now
      = .response ⟨200, some "audio/mpeg", none, some bytes.length, none, bytes⟩ := by
  have hpr : parse_range_header headers.range bytes.length = none := by
    rcases hrange with h | ⟨s, h, hm⟩
    · rw [h]; rfl
    · simp only [parse_range_header, h, hm]
  simp only [main_stream_track, hfs, hok, hpr]

/-- Witness for C5's amended theorem: `bytes=oops` has no embedded match, so
the whole three-byte file is served. -/
theorem no_regex_match_serves_whole_resource_witness :
    main_stream_track (fun name => if name = "t.mp3" then some [5, 6, 7] else none)
      "t" ⟨none, some "anon-key", some "bytes=oops"⟩ "secret" 0
      = .response ⟨200, some "audio/mpeg", none, some 3, none, [5, 6, 7]⟩ :=
  no_regex_match_serves_whole_resource _ "t" _ "secret" 0 [5, 6, 7] anonClaims
    (by decide) (by decide) (Or.inr ⟨"bytes=oops", rfl, by decide⟩)

/-- Claim C6, counterexample: neither the whole-resource response nor the
partial-content response of `stream_track` carries an `Accept-Ranges`
header — the source never sets it in either branch. -/
theorem track_responses_lack_accept_ranges :
    main_stream_track (fun name => if name = "t.mp3" then some [7, 8, 9] else none)
      "t" ⟨none, some "anon-key", none⟩ "secret" 0
      = .response ⟨200, some "audio/mpeg", none, some 3, none, [7, 8, 9]⟩ ∧
    main_stream_track (fun name => if name = "t.mp3" then some [7, 8, 9] else none)
      "t" ⟨none, some "anon-key", some "bytes=0-1"⟩ "secret" 0
      = .response ⟨206, some "audio/mpeg", some "bytes 0-1/3", some 2, none, [7, 8]⟩ ∧
    (HandlerResult.response ⟨200, some "audio/mpeg", none, some 3, none, [7, 8, 9]⟩).acceptRangesHdr
      ≠ some "bytes" := by
  exact ⟨by decide, by decide, by decide⟩

/-- Claim C6 (amended): every response of the track-retrieval handlers, in
both the 200 and the 206 case and in both source revisions, carries
`Content-Type: audio/mpeg` and a `Content-Length` header, but never an
`Accept-Ranges` header. -/
theorem track_response_headers
    (fs : String → Option (List Nat)) (id : String) (headers : HeaderMap)
    (jwt_secret : String) (now : Nat) :
    (∀ r, main_stream_track fs id headers jwt_secret now = .response r →
      r.contentType = some "audio/mpeg" ∧ r.contentLength.isSome = true ∧ r.acceptRanges = none) ∧
    (∀ r, lib_stream_track fs id headers jwt_secret now = .response r →
      r.contentType = some "audio/mpeg" ∧ r.contentLength.isSome = true ∧ r.acceptRanges = none) := by
  constructor
  · intro r h
    rcases hfs : fs (id ++ ".mp3") with _ | bytes <;>
      simp only [main_stream_track, hfs] at h
    · exact HandlerResult.noConfusion h
    · rcases hvr : verify_supabase_token headers jwt_secret now with c | code <;>
        simp only [hvr] at h
      · rcases hpr : parse_range_header headers.range bytes.length with _ | ⟨start, e⟩ <;>
          simp only [hpr] at h
        · injection h with h2
          subst h2
          exact ⟨rfl, rfl, rfl⟩
        · injection h with h2
          subst h2
          exact ⟨rfl, rfl, rfl⟩
      · exact HandlerResult.noConfusion h
  · intro r h
    rcases hvr : verify_supabase_token headers jwt_secret now with c | code <;>
      simp only [lib_stream_track, hvr] at h
    · rcases hfs : fs (id ++ ".mp3") with _ | bytes <;> simp only [hfs] at h
      · exact HandlerResult.noConfusion h
      · injection h with h2
        subst h2
        exact ⟨rfl, rfl, rfl⟩
    · exact HandlerResult.noConfusion h

/-- Witness for C6's amended theorem at a concrete 206 response. -/
theorem track_response_headers_witness :
    (⟨206, some "audio/mpeg", some "bytes 0-1/3", some 2, none, [7, 8]⟩ : TrackResponse).contentType
        = some "audio/mpeg" ∧
    (Option.isSome (some 2) = true) ∧
    (⟨206, some "audio/mpeg", some "bytes 0-1/3", some 2, none, [7, 8]⟩ : TrackResponse).acceptRanges
        = none :=
  (track_response_headers (fun name => if name = "t.mp3" then some [7, 8, 9] else none)
      "t" ⟨none, some "anon-key", some "bytes=0-1"⟩ "secret" 0).1
    ⟨206, some "audio/mpeg", some "bytes 0-1/3", some 2, none, [7, 8]⟩ (by decide)

/-- Claim C10 (confirmed): for a zero-length resource, any specifier whose
start parses makes the `file_size - 1` default-end computation underflow —
`unwrap_or` evaluates it eagerly — panicking in debug builds and wrapping
to `2^64 - 1` in release builds; for resources of length at least 1 the
computation never underflows, so the resolver is total only under the
precondition `total_length >= 1`. -/
theorem zero_length_default_end_underflow :
    default_end_underflows (some "bytes=0-") 0 = true ∧
    parse_range_header (some "bytes=0-") 0 = some (0, U64_MOD - 1) ∧
    ∀ hdr L, 1 ≤ L → default_end_underflows hdr L = false := by
  refine ⟨by decide, by decide, ?_⟩
  intro hdr L hL
  unfold default_end_underflows u64subPanics
  have h0 : (decide (L < 1)) = false := decide_eq_false (by omega)
  rw [h0, Bool.and_false]

/-- Witness for C10's totality part at a non-empty resource. -/
theorem zero_length_default_end_underflow_witness :
    default_end_underflows (some "bytes=5-") 3 = false :=
  zero_length_default_end_underflow.2.2 (some "bytes=5-") 3 (by decide)

/-- Claim C4, counterexample: a request for a track with no backing file
and no credential at all gets 401, not 404 — the `require_auth` middleware
rejects before the handler's file lookup can run. -/
theorem missing_file_without_credentials_gives_401 :
    app_tracks_route (fun _ => none) "ghost" ⟨none, none, none⟩ "secret" 0 = .err 401 ∧
    (HandlerResult.err 401 : HandlerResult) ≠ .err 404 := by
  exact ⟨rfl, by decide⟩

/-- Claim C4 (amended): for every request whose credentials verify (valid
bearer token or non-empty `apikey` without a `Bearer`-form `Authorization`
header), a track identifier with no backing file yields 404; with no
credential the guard answers 401 instead, so the 404 is not independent of
authentication mode. -/
theorem authenticated_missing_file_gives_404
    (fs : String → Option (List Nat)) (id : String) (headers : HeaderMap)
    (jwt_secret : String) (now : Nat) (c : Claims)
    (hok : verify_supabase_token headers jwt_secret now = .ok c)
    (hmiss : fs (id ++ ".mp3") = none) :
    app_tracks_route fs id headers jwt_secret now = .err 404 := by
  simp only [app_tracks_route, lib_stream_track, hok, hmiss]

/-- Witness for C4's amended theorem: apikey-authenticated request for a
missing track. -/
theorem authenticated_missing_file_gives_404_witness :
    app_tracks_route (fun _ => none) "ghost" ⟨none, some "anon-key", none⟩ "secret" 0
      = .err 404 :=
  authenticated_missing_file_gives_404 _ "ghost" _ "secret" 0 anonClaims (by decide) rfl

/-- Folding `push_back` over a list appends it to the queue in order. -/
theorem foldl_push_back (ids q : List String) : ids.foldl push_back q = q ++ ids := by
  induction ids generalizing q with
  | nil => simp
  | cons h t ih =>
    rw [List.foldl_cons, ih]
    simp [push_back]

/-- Draining a queue of its own length by `pop_front` returns its elements
in order. -/
theorem drainFuel_self (q : List String) : drainFuel q.length q = q := by
  induction q with
  | nil => rfl
  | cons h t ih =>
    show drainFuel (t.length + 1) (h :: t) = h :: t
    rw [show drainFuel (t.length + 1) (h :: t) = h :: drainFuel t.length t from rfl, ih]

/-- `drain` is the identity on queues: FIFO dequeue order equals the stored
order. -/
theorem drain_eq_self (q : List String) : drain q = q := drainFuel_self q

/-- Claim C7, counterexample: the handler `create_app` actually wires at
`POST /prefetch` (the `src/lib.rs` revision) does not enqueue anything — it
answers with valid/invalid identifier lists and the process prefetch queue
stays empty, so draining afterwards yields nothing, not `a, b, c`. -/
theorem wired_prefetch_handler_does_not_enqueue :
    app_prefetch_route (fun _ => none) ⟨none, some "anon-key", none⟩ "secret" 0
        ["a", "b", "c"] []
      = (.response 200 ⟨[], ["a", "b", "c"]⟩, []) ∧
    drain [] = [] ∧ ([] : List String) ≠ ["a", "b", "c"] := by
  exact ⟨by decide, rfl, by decide⟩

/-- Claim C7 (amended): the `src/main.rs` revision of `prefetch_tracks`
appends the body identifiers to the shared queue in body order, and
draining the queue by `pop_front` dequeues in exactly that order (strict
FIFO); the revision wired into the app performs no enqueue at all. -/
theorem main_prefetch_enqueues_in_order_fifo
    (headers : HeaderMap) (jwt_secret : String) (now : Nat)
    (track_ids queue : List String) (c : Claims)
    (hok : verify_supabase_token headers jwt_secret now = .ok c) :
    main_prefetch_tracks headers jwt_secret now track_ids queue = (200, queue ++ track_ids) ∧
    drain (queue ++ track_ids) = queue ++ track_ids := by
  refine ⟨?_, drain_eq_self _⟩
  simp only [main_prefetch_tracks, hok, foldl_push_back]

/-- Witness for C7's amended theorem: enqueuing `a, b, c` on an empty queue
then draining yields `a, b, c`. -/
theorem main_prefetch_enqueues_in_order_fifo_witness :
    main_prefetch_tracks ⟨none, some "anon-key", none⟩ "secret" 0 ["a", "b", "c"] []
      = (200, ["a", "b", "c"]) ∧
    drain ["a", "b", "c"] = ["a", "b", "c"] :=
  main_prefetch_enqueues_in_order_fifo ⟨none, some "anon-key", none⟩ "secret" 0
    ["a", "b", "c"] [] anonClaims (by decide)

/-- One worker iteration on a non-empty queue always pops the head and
sleeps 100 ms, whatever the warming filesystem does. -/
theorem prefetch_iteration_cons (warmfs : String → Option (List ReadResult))
    (h : String) (t : List String) :
    prefetch_task_iteration warmfs (h :: t) = ⟨t, 100⟩ := by
  cases hw : warmfs (h ++ ".mp3") <;>
    simp [prefetch_task_iteration, pop_front, hw]

/-- Claim C8 (confirmed): in every iteration of the prefetch worker loop
the head identifier of a non-empty queue is removed unconditionally, the
iteration sleeps the fixed 100 ms interval whether or not an item was
found, and its observable outcome is identical for any two warming
filesystems — a missing file or any sequence of read errors is absorbed
inside the worker and can never surface to a caller. -/
theorem prefetch_worker_consumes_head_unconditionally
    (warmfs warmfs' : String → Option (List ReadResult)) (q : List String) :
    (prefetch_task_iteration warmfs q).sleep_ms = 100 ∧
    (∀ h t, q = h :: t → (prefetch_task_iteration warmfs q).queue = t) ∧
    prefetch_task_iteration warmfs q = prefetch_task_iteration warmfs' q := by
  cases q with
  | nil => exact ⟨rfl, fun h t hq => List.noConfusion hq, rfl⟩
  | cons h t =>
    refine ⟨?_, ?_, ?_⟩
    · rw [prefetch_iteration_cons]
    · intro h2 t2 hq
      injection hq with hh ht
      subst ht
      rw [prefetch_iteration_cons]
    · rw [prefetch_iteration_cons, prefetch_iteration_cons]

/-- Witness for C8 at a concrete queue and a warming filesystem with no
files. -/
theorem prefetch_worker_consumes_head_unconditionally_witness :
    (prefetch_task_iteration (fun _ => none) ["a", "b"]).queue = ["b"] ∧
    (prefetch_task_iteration (fun _ => none) ["a", "b"]).sleep_ms = 100 :=
  ⟨(prefetch_worker_consumes_head_unconditionally (fun _ => none) (fun _ => none)
      ["a", "b"]).2.1 "a" ["b"] rfl,
   (prefetch_worker_consumes_head_unconditionally (fun _ => none) (fun _ => none)
      ["a", "b"]).1⟩

/-- Claim C9, counterexample: an authenticated `GET /me` answers 200 with a
JSON body holding only `user_id` and `email` — there is no `role` field. -/
theorem me_response_has_no_role_field :
    lib_user_info ⟨none, some "anon-key", none⟩ "secret" 0
      = .ok 200 [("user_id", some "anon-user"), ("email", none)] ∧
    (lib_user_info ⟨none, some "anon-key", none⟩ "secret" 0).hasField "role" = false := by
  exact ⟨by decide, by decide⟩

/-- Claim C9 (amended): for every authenticated `GET /me` the response has
status 200 and a JSON body with `user_id` and `email` taken from the
verified claims; no `role` field is included. -/
theorem me_returns_user_id_and_email_from_claims
    (headers : HeaderMap) (jwt_secret : String) (now : Nat) (c : Claims)
    (hok : verify_supabase_token headers jwt_secret now = .ok c) :
    lib_user_info headers jwt_secret now
      = .ok 200 [("user_id", some c.sub), ("email", c.email)] ∧
    (lib_user_info headers jwt_secret now).hasField "role" = false := by
  have h1 : lib_user_info headers jwt_secret now
      = .ok 200 [("user_id", some c.sub), ("email", c.email)] := by
    simp only [lib_user_info, hok]
  refine ⟨h1, ?_⟩
  rw [h1]
  rfl

/-- Witness for C9's amended theorem at an apikey-authenticated request. -/
theorem me_returns_user_id_and_email_from_claims_witness :
    lib_user_info ⟨none, some "anon-key", none⟩ "secret" 5
      = .ok 200 [("user_id", some "anon-user"), ("email", none)] ∧
    (lib_user_info ⟨none, some "anon-key", none⟩ "secret" 5).hasField "role" = false :=
  me_returns_user_id_and_email_from_claims ⟨none, some "anon-key", none⟩ "secret" 5
    anonClaims (by decide)

end RustyCassowary
